import Mathlib

/-!
Verification of the vk2tg wall-management script (`src/vk.py`).

The script is a sequential batch tool: it enumerates all posts on a wall
through an offset-paged JSON API, optionally exports their text, and can
bulk-delete them behind interactive confirmation gates.  This file embeds
the pure control flow of `VKParser` shallowly:

* An API response to `wall.delete` is modelled by `Option DeleteResp`:
  `none` is a transport failure (`_make_api_request` catches the exception
  and returns `None`), and `some r` is the parsed JSON object, with the
  optional `response` and `error` keys as `Option` fields.
* A page-fetch outcome for `wall.get` is modelled by `WallGetResult`:
  `fail` covers both a `None` response and a JSON object without the
  `response` envelope, `items l` is a successful page.
* Interactive input is passed as explicit string arguments; the remote
  delete endpoint is a function from post id to response; printed
  diagnostic lines are modelled as lists of strings.
* The Python statement `if 'error' in response:` on line 140 raises
  `TypeError` when `response` is `None`; that crash path is modelled with
  `Except`: `Except.error` carries the tally at the moment of the crash.
-/

/-- A wall post as used by the script: `id`, `date` and the optional
`text` key (`'text' in post` is checked before use in the exporter). -/
structure Post where
  id : Int
  date : Int
  text : Option String
deriving DecidableEq

/-- Parsed JSON object returned by `wall.delete`: the optional `response`
field (an integer when present) and the optional `error` payload
(`error_code`, `error_msg`). `Option.none` at the call site stands for a
transport failure (no response at all). -/
structure DeleteResp where
  response : Option Int
  error : Option (Int × String)
deriving DecidableEq

/-- Running counters of a deletion loop: delete calls issued, posts
deleted, errors recorded. -/
structure Tally where
  calls : Nat
  deleted : Nat
  errors : Nat
deriving DecidableEq

/-- The success test on line 134 / line 202 of `vk.py`:
`response and 'response' in response and response['response'] == 1`.
A `None` response fails the first conjunct; an object without the
`response` key fails the second; otherwise the value must equal `1`. -/
def isSuccess : Option DeleteResp → Bool
  | some resp => decide (resp.response = some 1)
  | none => false

/-- The deletion loop of `delete_all_posts` (lines 125-145).  Each post
triggers one `wall.delete` call.  On success `deleted_count` is bumped;
otherwise `error_count` is bumped and the code then evaluates
`'error' in response`, which raises `TypeError` when the response is
`None` — modelled by `Except.error` carrying the tally at the crash
(the failing call was issued and its error already counted). -/
def deleteAllLoop (api : Int → Option DeleteResp) : List Post → Except Tally Tally
  | [] => Except.ok ⟨0, 0, 0⟩
  | p :: ps =>
    match api p.id with
    | none => Except.error ⟨1, 0, 1⟩
    | some resp =>
      if isSuccess (some resp) then
        match deleteAllLoop api ps with
        | Except.ok t => Except.ok ⟨t.calls + 1, t.deleted + 1, t.errors⟩
        | Except.error t => Except.error ⟨t.calls + 1, t.deleted + 1, t.errors⟩
      else
        match deleteAllLoop api ps with
        | Except.ok t => Except.ok ⟨t.calls + 1, t.deleted, t.errors + 1⟩
        | Except.error t => Except.error ⟨t.calls + 1, t.deleted, t.errors + 1⟩

/-- `delete_all_posts` (lines 101-151), after authorization.  The fast
confirmation gate is checked first; then the enumerated collection is
tested for emptiness; then the deletion loop runs.  Result: number of
delete calls issued, and either the returned boolean
(`error_count == 0`) or `Except.error ()` when the loop crashed with
`TypeError`. -/
def delete_all_posts (confirmation : String) (posts : List Post)
    (api : Int → Option DeleteResp) : Nat × Except Unit Bool :=
  if confirmation ≠ "DELETE ALL" then (0, Except.ok false)
  else if posts = [] then (0, Except.ok true)
  else
    match deleteAllLoop api posts with
    | Except.ok t => (t.calls, Except.ok (t.errors == 0))
    | Except.error t => (t.calls, Except.error ())

/-- The deletion loop of `_delete_posts` (lines 194-208).  Same success
test, but the failure branch only prints a generic line, so no response
shape can crash it. -/
def deletePostsLoop (api : Int → Option DeleteResp) : List Post → Tally
  | [] => ⟨0, 0, 0⟩
  | p :: ps =>
    let t := deletePostsLoop api ps
    if isSuccess (api p.id) then ⟨t.calls + 1, t.deleted + 1, t.errors⟩
    else ⟨t.calls + 1, t.deleted, t.errors + 1⟩

/-- `_delete_posts` (lines 189-214): runs the loop over the whole list and
returns `error_count == 0`; also exposes the number of calls issued. -/
def delete_posts (posts : List Post) (api : Int → Option DeleteResp) : Nat × Bool :=
  ((deletePostsLoop api posts).calls, (deletePostsLoop api posts).errors == 0)

/-- Observable outcome of `delete_posts_with_confirmation`: how many
preview lines were printed, how many confirmation prompts were issued,
how many delete calls were made, and the returned boolean. -/
structure ConfirmOutcome where
  previews : Nat
  prompts : Nat
  calls : Nat
  result : Bool
deriving DecidableEq

/-- `delete_posts_with_confirmation` (lines 153-187), after
authorization.  Enumeration happens first; an empty collection returns
`True` with no preview and no prompt.  Otherwise the first five posts are
previewed, then the two gates are checked in order; the second prompt is
only issued when the first matched. -/
def delete_posts_with_confirmation (posts : List Post) (c1 c2 : String)
    (api : Int → Option DeleteResp) : ConfirmOutcome :=
  if posts = [] then ⟨0, 0, 0, true⟩
  else if c1 ≠ "DELETE MY POSTS" then ⟨(posts.take 5).length, 1, 0, false⟩
  else if c2 ≠ "YES I AM SURE" then ⟨(posts.take 5).length, 2, 0, false⟩
  else ⟨(posts.take 5).length, 2, (delete_posts posts api).1, (delete_posts posts api).2⟩

/-- Outcome of one `wall.get` page fetch: `fail` is a `None` response or
a JSON object without the `response` key (line 83), `items l` is the
`response.items` list. -/
inductive WallGetResult
  | fail
  | items (posts : List Post)
deriving DecidableEq

/-- `get_all_posts` (lines 63-99), fed the sequence of page-fetch
outcomes in offset order.  Returns the accumulated posts and the number
of fetches performed.  The loop breaks on a failed fetch, on an empty
page, and after a page strictly shorter than `count = 100`. -/
def get_all_posts : List WallGetResult → List Post × Nat
  | [] => ([], 0)
  | WallGetResult.fail :: _ => ([], 1)
  | WallGetResult.items ps :: rest =>
    if ps = [] then ([], 1)
    else if ps.length < 100 then (ps, 1)
    else
      match get_all_posts rest with
      | (acc, f) => (ps ++ acc, f + 1)

/-- Placeholder post used when only the shape of a page matters. -/
def dummyPost : Post := ⟨0, 0, none⟩

/-- The page-fetch outcomes served by an ideal remote source holding `N`
items laid out in pages of 100: the fetch at offset `100 * k` returns
`min 100 (N - 100 * k)` items.  Outcomes are supplied for every offset
the loop can reach (`k = 0` up to `N / 100`). -/
def idealPages (N : Nat) : List WallGetResult :=
  (List.range (N / 100 + 1)).map
    (fun k => WallGetResult.items (List.replicate (min 100 (N - 100 * k)) dummyPost))

/-- The fetch-count formula asserted by the specification: `⌈N/100⌉`,
plus one extra fetch exactly when `N` is a positive multiple of 100. -/
def claimedFetches (N : Nat) : Nat :=
  (N + 99) / 100 + (if N % 100 = 0 ∧ 0 < N then 1 else 0)

/-- The preview shown by `delete_posts_with_confirmation` (line 170):
`post['text'][:100] + "..." if len(post['text']) > 100 else post['text']`. -/
def text_preview (t : String) : String :=
  if t.length > 100 then t.take 100 ++ "..." else t

/-- One exported block (line 224):
`f"Дата: {post_date}\nТекст: {post['text']}\n{'-' * 50}"`.  The date
formatter `time.strftime`/`time.localtime` is abstracted as `fmt`. -/
def postEntry (fmt : Int → String) (date : Int) (t : String) : String :=
  "Дата: " ++ fmt date ++ "\nТекст: " ++ t ++ "\n" ++ String.mk (List.replicate 50 '-')

/-- `extract_text_from_posts` (lines 216-226): the loop appends one block
per post that has a `text` key whose value strips to a non-empty string. -/
def extract_text_from_posts (fmt : Int → String) (posts : List Post) : List String :=
  posts.foldl
    (fun texts post =>
      match post.text with
      | some t => if t.trim ≠ "" then texts ++ [postEntry fmt post.date t] else texts
      | none => texts)
    []

/-- Specification-side restatement of the exporter filter: keep a post
exactly when its text is present and non-whitespace, and map it to its
block.  Compared against `extract_text_from_posts`. -/
def keptEntry (fmt : Int → String) (post : Post) : Option String :=
  match post.text with
  | some t => if t.trim ≠ "" then some (postEntry fmt post.date t) else none
  | none => none

/-- Diagnostic lines printed by `delete_all_posts` for one delete call
(lines 134-142).  On failure the generic line is printed, then — when the
parsed object carries an `error` payload — the error code and message
lines.  For a `None` response the generic line is printed and then
`'error' in response` raises `TypeError` (modelled in `deleteAllLoop`). -/
def deleteAllItemDiag (pid : Int) (r : Option DeleteResp) : List String :=
  match r with
  | some resp =>
    if isSuccess (some resp) then ["✓ Пост " ++ toString pid ++ " удален"]
    else
      ("✗ Ошибка удаления поста " ++ toString pid) ::
        (match resp.error with
         | some ce => ["   Код ошибки: " ++ toString ce.1, "   Сообщение: " ++ ce.2]
         | none => [])
  | none => ["✗ Ошибка удаления поста " ++ toString pid]

/-- Diagnostic lines printed by `_delete_posts` for one delete call
(lines 202-206): a single generic line on any failure, nothing on
success.  The `error` payload is never read on this path. -/
def deletePostsItemDiag (pid : Int) (r : Option DeleteResp) : List String :=
  match r with
  | some resp =>
    if isSuccess (some resp) then []
    else ["   Ошибка при удалении поста " ++ toString pid]
  | none => ["   Ошибка при удалении поста " ++ toString pid]

/-- `needle` is surfaced by the printed `lines` when it occurs verbatim
inside one of them. -/
def Surfaced (needle : String) (lines : List String) : Prop :=
  ∃ l ∈ lines, needle.data <:+: l.data

instance (needle : String) (lines : List String) : Decidable (Surfaced needle lines) :=
  List.decidableBEx _ lines

/-- The tally visible at the end of `deleteAllLoop`, whether the loop
returned normally or crashed. -/
def tallyOf : Except Tally Tally → Tally
  | Except.ok t => t
  | Except.error t => t

theorem deletePostsLoop_calls (api : Int → Option DeleteResp) (posts : List Post) :
    (deletePostsLoop api posts).calls = posts.length := by
  induction posts with
  | nil => rfl
  | cons p ps ih =>
    simp only [deletePostsLoop]
    split <;> simp [ih]

theorem deletePostsLoop_deleted (api : Int → Option DeleteResp) (posts : List Post) :
    (deletePostsLoop api posts).deleted = posts.countP (fun p => isSuccess (api p.id)) := by
  induction posts with
  | nil => rfl
  | cons p ps ih =>
    simp only [deletePostsLoop, List.countP_cons]
    split <;> rename_i h <;> simp [h, ih]

theorem deletePostsLoop_errors (api : Int → Option DeleteResp) (posts : List Post) :
    (deletePostsLoop api posts).errors = posts.countP (fun p => !isSuccess (api p.id)) := by
  induction posts with
  | nil => rfl
  | cons p ps ih =>
    simp only [deletePostsLoop, List.countP_cons]
    split <;> rename_i h <;> simp [h, ih]

theorem deletePostsLoop_sum (api : Int → Option DeleteResp) (posts : List Post) :
    (deletePostsLoop api posts).deleted + (deletePostsLoop api posts).errors
      = posts.length := by
  induction posts with
  | nil => rfl
  | cons p ps ih =>
    simp only [deletePostsLoop]
    split <;> simp <;> omega

theorem deleteAllLoop_cons_calls (api : Int → Option DeleteResp) (p : Post) (ps : List Post) :
    0 < (tallyOf (deleteAllLoop api (p :: ps))).calls := by
  simp only [deleteAllLoop]
  cases api p.id with
  | none => simp [tallyOf]
  | some resp =>
    cases deleteAllLoop api ps <;> split <;> (try split) <;> simp [tallyOf]

/-- A delete endpoint that never responds: every call is a transport
failure (`_make_api_request` returns `None`). -/
def apiAllFail : Int → Option DeleteResp := fun _ => none

/-- A delete endpoint where the call for post id 1 suffers a transport
failure and every other call succeeds with the sentinel `1`. -/
def apiFailFirst : Int → Option DeleteResp :=
  fun pid => if pid = 1 then none else some ⟨some 1, none⟩

/-- C1: the claim says the deletion loop issues exactly `N` delete calls
whatever each call's outcome and returns `deleted + errors = N`.  The
code violates this in `delete_all_posts`: when a call gets no response,
`'error' in response` on line 140 raises `TypeError`, so with two posts
and a transport failure on the first call the loop aborts after one call
and returns no tally, while `_delete_posts` on the same input does issue
both calls with `deleted + errors = 2`. -/
theorem c1_loop_abort :
    delete_all_posts "DELETE ALL" [⟨1, 0, none⟩, ⟨2, 0, none⟩] apiFailFirst
        = (1, Except.error ())
      ∧ delete_posts [⟨1, 0, none⟩, ⟨2, 0, none⟩] apiFailFirst = (2, false)
      ∧ (deletePostsLoop apiFailFirst [⟨1, 0, none⟩, ⟨2, 0, none⟩]).deleted
          + (deletePostsLoop apiFailFirst [⟨1, 0, none⟩, ⟨2, 0, none⟩]).errors = 2 :=
  ⟨rfl, rfl, rfl⟩

/-- C2: the claim says a transport failure during bulk deletion is
recorded as a per-item failure and never propagated as a crash.  In
`delete_all_posts` the error is counted, but the subsequent
`'error' in response` membership test on the `None` response raises
`TypeError`, which escapes the operation: the model crashes
(`Except.error ()`) on a one-post wall whose delete call gets no
response.  `_delete_posts` on the same input recovers as claimed. -/
theorem c2_transport_crash :
    delete_all_posts "DELETE ALL" [⟨1, 0, none⟩] apiAllFail = (1, Except.error ())
      ∧ delete_posts [⟨1, 0, none⟩] apiAllFail = (1, false) :=
  ⟨rfl, rfl⟩

/-- C4: the fast gate proceeds to deletion iff the prompt input is the
literal `"DELETE ALL"`; any other input returns `False` with zero delete
calls issued. -/
theorem c4_fast_gate (s : String) (posts : List Post) (api : Int → Option DeleteResp) :
    (s ≠ "DELETE ALL" → delete_all_posts s posts api = (0, Except.ok false))
      ∧ (posts ≠ [] → (0 < (delete_all_posts s posts api).1 ↔ s = "DELETE ALL")) := by
  constructor
  · intro h
    simp [delete_all_posts, h]
  · intro hp
    constructor
    · intro hc
      by_contra hs
      simp [delete_all_posts, hs] at hc
    · intro hs
      subst hs
      obtain ⟨p, ps, rfl⟩ := List.exists_cons_of_ne_nil hp
      have hcalls := deleteAllLoop_cons_calls api p ps
      simp only [delete_all_posts, ne_eq, not_true_eq_false, if_false, reduceCtorEq,
        ite_false, if_neg (List.cons_ne_nil p ps)]
      cases h : deleteAllLoop api (p :: ps) with
      | ok t => rw [h] at hcalls; simpa [tallyOf] using hcalls
      | error t => rw [h] at hcalls; simpa [tallyOf] using hcalls

/-- Witness for C4 at a lowercase input: the operation aborts with zero
calls and result `False`. -/
theorem c4_fast_gate_witness :
    delete_all_posts "delete all" [⟨1, 0, none⟩] apiAllFail = (0, Except.ok false) :=
  (c4_fast_gate "delete all" [⟨1, 0, none⟩] apiAllFail).1 (by decide)

/-- C5: on a non-empty wall the thorough gate proceeds to deletion iff
the first input is `"DELETE MY POSTS"` and the second `"YES I AM SURE"`;
a failed first stage issues only one prompt; failing either stage aborts
with zero delete calls and result `False`. -/
theorem c5_thorough_gate (posts : List Post) (c1 c2 : String)
    (api : Int → Option DeleteResp) (hp : posts ≠ []) :
    (0 < (delete_posts_with_confirmation posts c1 c2 api).calls
        ↔ (c1 = "DELETE MY POSTS" ∧ c2 = "YES I AM SURE"))
      ∧ (c1 ≠ "DELETE MY POSTS" →
          delete_posts_with_confirmation posts c1 c2 api
            = ⟨(posts.take 5).length, 1, 0, false⟩)
      ∧ (c1 = "DELETE MY POSTS" → c2 ≠ "YES I AM SURE" →
          delete_posts_with_confirmation posts c1 c2 api
            = ⟨(posts.take 5).length, 2, 0, false⟩) := by
  by_cases h1 : c1 = "DELETE MY POSTS" <;> by_cases h2 : c2 = "YES I AM SURE" <;>
    simp [delete_posts_with_confirmation, hp, h1, h2, delete_posts,
      deletePostsLoop_calls, List.length_pos, ConfirmOutcome.mk.injEq]

/-- Witness for C5: with one post, a correct first phrase and a wrong
second phrase, both prompts were issued, no delete call was made, and
the operation returned `False`. -/
theorem c5_thorough_gate_witness :
    delete_posts_with_confirmation [⟨1, 0, none⟩] "DELETE MY POSTS" "no" apiAllFail
      = ⟨1, 2, 0, false⟩ :=
  (c5_thorough_gate [⟨1, 0, none⟩] "DELETE MY POSTS" "no" apiAllFail
    (by decide)).2.2 rfl (by decide)

/-- C10: when enumeration yields an empty collection, `delete_all_posts`
(after its gate) and `delete_posts_with_confirmation` both return `True`
with zero delete calls, and the thorough path shows no preview and
issues no confirmation prompt. -/
theorem c10_empty_collection (api : Int → Option DeleteResp) (c1 c2 : String) :
    delete_all_posts "DELETE ALL" [] api = (0, Except.ok true)
      ∧ delete_posts_with_confirmation [] c1 c2 api = ⟨0, 0, 0, true⟩ :=
  ⟨rfl, rfl⟩

theorem idealPages_small (N : Nat) (h : N < 100) :
    idealPages N = [WallGetResult.items (List.replicate N dummyPost)] := by
  have h0 : N / 100 = 0 := Nat.div_eq_of_lt h
  have hmin : min 100 (N - 100 * 0) = N := by omega
  simp [idealPages, h0, List.range_succ, hmin]
  omega

theorem idealPages_large (N : Nat) (h : 100 ≤ N) :
    idealPages N
      = WallGetResult.items (List.replicate 100 dummyPost) :: idealPages (N - 100) := by
  have hdiv : N / 100 = (N - 100) / 100 + 1 := by
    rw [Nat.div_eq]
    simp [h]
  rw [idealPages, hdiv, List.range_succ_eq_map]
  simp only [List.map_cons, List.map_map]
  congr 1
  · have : min 100 (N - 100 * 0) = 100 := by omega
    rw [this]
  · rw [idealPages]
    refine List.map_congr_left ?_
    intro k hk
    have : N - 100 * (k + 1) = N - 100 - 100 * k := by omega
    simp [Function.comp, this]

theorem get_all_posts_ideal (N : Nat) :
    (get_all_posts (idealPages N)).1.length = N
      ∧ (get_all_posts (idealPages N)).2 = N / 100 + 1 := by
  induction N using Nat.strong_induction_on with
  | _ N ih =>
    by_cases h : N < 100
    · rw [idealPages_small N h]
      by_cases h0 : N = 0
      · subst h0
        simp [get_all_posts]
      · have hne : List.replicate N dummyPost ≠ [] := by
          simp [h0]
        simp [get_all_posts, hne, h, Nat.div_eq_of_lt h]
    · push_neg at h
      rw [idealPages_large N h]
      obtain ⟨h1, h2⟩ := ih (N - 100) (by omega)
      simp only [get_all_posts]
      rw [if_neg (by simp), if_neg (by simp)]
      cases hg : get_all_posts (idealPages (N - 100)) with
      | mk acc f =>
        rw [hg] at h1 h2
        simp only [List.length_append, List.length_replicate] at h1 ⊢
        constructor
        · omega
        · omega

/-- C3 counterexample: for `N = 0` the claimed fetch count is
`⌈0/100⌉ + 0 = 0`, but the enumeration loop always performs its first
fetch (which returns the empty page and terminates it), so the code
performs one fetch. -/
theorem c3_fetch_count_cex :
    (get_all_posts (idealPages 0)).2 = 1 ∧ claimedFetches 0 = 0
      ∧ (get_all_posts (idealPages 0)).2 ≠ claimedFetches 0 :=
  ⟨rfl, rfl, by decide⟩

/-- C3 amended: against a source holding `N` items in pages of 100,
enumeration returns exactly `N` items, and the number of fetches is
`⌈N/100⌉` plus one extra exactly when `N` is a multiple of 100 —
including `N = 0`, where the single initial fetch of an empty page is the
extra one (the claim had restricted the extra fetch to positive
multiples). -/
theorem c3_enumeration_pagination (N : Nat) :
    (get_all_posts (idealPages N)).1.length = N
      ∧ (get_all_posts (idealPages N)).2
          = (N + 99) / 100 + (if N % 100 = 0 then 1 else 0) := by
  obtain ⟨h1, h2⟩ := get_all_posts_ideal N
  refine ⟨h1, ?_⟩
  rw [h2]
  split <;> omega

/-- C7: whenever a page fetch fails mid-enumeration (no response, or a
response without the `response` envelope), the loop stops at that fetch
and returns the items of the full pages accumulated before it, whatever
outcomes would have followed; no exception is propagated (the model is a
total function into plain pairs). -/
theorem c7_partial_on_failure (pages : List (List Post)) (rest : List WallGetResult)
    (hfull : ∀ pg ∈ pages, pg.length = 100) :
    get_all_posts (pages.map WallGetResult.items ++ WallGetResult.fail :: rest)
      = (pages.flatten, pages.length + 1) := by
  induction pages with
  | nil => rfl
  | cons pg pgs ih =>
    have h100 : pg.length = 100 := hfull pg (by simp)
    have hne : pg ≠ [] := by
      intro h
      rw [h] at h100
      simp at h100
    simp only [List.map_cons, List.cons_append, get_all_posts]
    rw [if_neg hne, if_neg (by omega)]
    simp only [List.append_eq]
    rw [ih (fun q hq => hfull q (by simp [hq]))]
    simp

/-- Witness for C7: one full page followed by a failed fetch yields
exactly that page after two fetches. -/
theorem c7_partial_on_failure_witness :
    get_all_posts ([List.replicate 100 dummyPost].map WallGetResult.items
        ++ WallGetResult.fail :: [])
      = (List.replicate 100 dummyPost, 2) := by
  have h := c7_partial_on_failure [List.replicate 100 dummyPost] []
    (by intro pg hpg; simp at hpg; simp [hpg])
  simpa using h

theorem deleteAllLoop_ok_counts (api : Int → Option DeleteResp) (posts : List Post)
    (t : Tally) (h : deleteAllLoop api posts = Except.ok t) :
    t.calls = posts.length
      ∧ t.deleted = posts.countP (fun p => isSuccess (api p.id))
      ∧ t.errors = posts.countP (fun p => !isSuccess (api p.id)) := by
  induction posts generalizing t with
  | nil =>
    obtain rfl : (⟨0, 0, 0⟩ : Tally) = t := by simpa [deleteAllLoop] using h
    simp
  | cons p ps ih =>
    cases hapi : api p.id with
    | none =>
      simp [deleteAllLoop, hapi] at h
    | some resp =>
      cases hrec : deleteAllLoop api ps with
      | error t' =>
        by_cases hs : isSuccess (some resp) = true <;>
          simp [deleteAllLoop, hapi, hrec, hs] at h
      | ok t' =>
        obtain ⟨h1, h2, h3⟩ := ih t' hrec
        by_cases hs : isSuccess (some resp) = true
        · simp [deleteAllLoop, hapi, hrec, hs] at h
          subst h
          simp [List.length_cons, List.countP_cons, hapi, hs, h1, h2, h3]
        · simp [deleteAllLoop, hapi, hrec, hs] at h
          subst h
          simp only [Bool.not_eq_true] at hs
          simp [List.length_cons, List.countP_cons, hapi, hs, h1, h2, h3]

/-- C6: in both deletion loops a call counts as deleted exactly when its
response carries `response == 1` (the success sentinel); every other
response — structured error payload, missing envelope, or transport
failure — counts as an error; and the operation's boolean result is
`True` iff `error_count = 0`.  For `delete_all_posts` this is stated for
completed runs (`deleteAllLoop = ok`); the crash on a `None` response is
the subject of C1/C2. -/
theorem c6_success_sentinel (api : Int → Option DeleteResp) (posts : List Post) :
    ((deletePostsLoop api posts).deleted = posts.countP (fun p => isSuccess (api p.id))
      ∧ (deletePostsLoop api posts).errors
          = posts.countP (fun p => !isSuccess (api p.id))
      ∧ ((delete_posts posts api).2 = true ↔ (deletePostsLoop api posts).errors = 0))
      ∧ (∀ t : Tally, deleteAllLoop api posts = Except.ok t →
          t.deleted = posts.countP (fun p => isSuccess (api p.id))
            ∧ t.errors = posts.countP (fun p => !isSuccess (api p.id))
            ∧ (posts ≠ [] →
                ((delete_all_posts "DELETE ALL" posts api).2 = Except.ok true
                  ↔ t.errors = 0))) := by
  refine ⟨⟨deletePostsLoop_deleted api posts, deletePostsLoop_errors api posts, ?_⟩, ?_⟩
  · simp [delete_posts]
  · intro t ht
    obtain ⟨_, h2, h3⟩ := deleteAllLoop_ok_counts api posts t ht
    refine ⟨h2, h3, ?_⟩
    intro hp
    simp [delete_all_posts, hp, ht]

/-- A delete endpoint where the call for post id 1 succeeds with the
sentinel and every other call returns a structured error payload. -/
def apiMixed : Int → Option DeleteResp :=
  fun pid =>
    if pid = 1 then some ⟨some 1, none⟩ else some ⟨some 0, some (15, "Access denied")⟩

/-- Witness for C6: on a two-post wall with one sentinel success and one
error payload, the completed run tallies `⟨2 calls, 1 deleted, 1 error⟩`
and the overall result is `True` iff that error count is zero. -/
theorem c6_success_sentinel_witness :
    (delete_all_posts "DELETE ALL" [⟨1, 0, none⟩, ⟨2, 0, none⟩] apiMixed).2
        = Except.ok true
      ↔ (⟨2, 1, 1⟩ : Tally).errors = 0 :=
  ((c6_success_sentinel apiMixed [⟨1, 0, none⟩, ⟨2, 0, none⟩]).2 ⟨2, 1, 1⟩ rfl).2.2
    (by decide)

theorem string_data_append (a b : String) : (a ++ b).data = a.data ++ b.data := rfl

/-- A needle is surfaced by printed lines when one line contains it
verbatim; in particular a line of the shape `prefix ++ needle`. -/
theorem surfaced_of_append (pre needle : String) (lines : List String)
    (h : pre ++ needle ∈ lines) : Surfaced needle lines :=
  ⟨pre ++ needle, h, pre.data, [], by simp [string_data_append]⟩

/-- The failed response used in the C8 counterexample: no success
sentinel, and a structured error payload with code 15 and message
`"Access denied"`. -/
def errResp : Option DeleteResp := some ⟨some 0, some (15, "Access denied")⟩

/-- C8 counterexample: the claim says the error code and message of a
structured error payload are surfaced on both deletion paths.  On the
thorough path (`_delete_posts`), a failed call with payload
`(15, "Access denied")` prints only the generic line, which contains
neither the message nor the code — the payload is never read there. -/
theorem c8_payload_not_surfaced_cex :
    isSuccess errResp = false
      ∧ deletePostsItemDiag 1 errResp = ["   Ошибка при удалении поста 1"]
      ∧ ¬ Surfaced "Access denied" (deletePostsItemDiag 1 errResp)
      ∧ ¬ Surfaced "15" (deletePostsItemDiag 1 errResp) := by
  refine ⟨rfl, rfl, ?_, ?_⟩ <;> decide

/-- C8 amended: for a failed delete call whose response carries a
structured error payload — whatever the `response` field holds: absent
(the canonical `{error: ...}` reply) or present with a non-sentinel
value — the fast path (`delete_all_posts`) surfaces both the error code
and the error message in its diagnostic lines, and the thorough path
(`_delete_posts`) prints a user-visible per-item failure message — but
only a generic one, without the payload's code and message. -/
theorem c8_diagnostics (pid c : Int) (rv : Option Int) (m : String) (hv : rv ≠ some 1) :
    Surfaced (toString c) (deleteAllItemDiag pid (some ⟨rv, some (c, m)⟩))
      ∧ Surfaced m (deleteAllItemDiag pid (some ⟨rv, some (c, m)⟩))
      ∧ deletePostsItemDiag pid (some ⟨rv, some (c, m)⟩)
          = ["   Ошибка при удалении поста " ++ toString pid] := by
  have hs : isSuccess (some ⟨rv, some (c, m)⟩) = false := by
    simp [isSuccess, hv]
  refine ⟨?_, ?_, ?_⟩
  · apply surfaced_of_append "   Код ошибки: "
    simp [deleteAllItemDiag, hs]
  · apply surfaced_of_append "   Сообщение: "
    simp [deleteAllItemDiag, hs]
  · simp [deletePostsItemDiag, hs]

/-- Witness for C8 (amended): at the canonical error reply — no
`response` field, payload `(15, "Access denied")` — the fast path
surfaces the message. -/
theorem c8_diagnostics_witness :
    Surfaced "Access denied"
      (deleteAllItemDiag 1 (some ⟨none, some (15, "Access denied")⟩)) :=
  (c8_diagnostics 1 15 none "Access denied" (by decide)).2.1

theorem extract_go (fmt : Int → String) (posts : List Post) (acc : List String) :
    posts.foldl
        (fun texts post =>
          match post.text with
          | some t => if t.trim ≠ "" then texts ++ [postEntry fmt post.date t] else texts
          | none => texts)
        acc
      = acc ++ posts.filterMap (keptEntry fmt) := by
  induction posts generalizing acc with
  | nil => simp
  | cons p ps ih =>
    simp only [List.foldl_cons, List.filterMap_cons]
    rw [ih]
    cases h : p.text with
    | none =>
      simp [keptEntry, h]
    | some t =>
      by_cases ht : t.trim = ""
      · simp [keptEntry, h, ht]
      · simp [keptEntry, h, ht]

/-- C9: the exporter emits exactly one block per post whose text is
present and non-empty after stripping, in input order (it equals a
`filterMap` over the input); each block contains the post's full text
verbatim (its character list is an infix of the block's); and the
thorough gate's preview of a text longer than 100 characters is its
first 100 characters followed by `"..."`. -/
theorem c9_exporter (fmt : Int → String) (posts : List Post) :
    extract_text_from_posts fmt posts = posts.filterMap (keptEntry fmt)
      ∧ (∀ d t, t.data <:+: (postEntry fmt d t).data)
      ∧ (∀ t : String, 100 < t.length → text_preview t = t.take 100 ++ "...") := by
  refine ⟨extract_go fmt posts [], ?_, ?_⟩
  · intro d t
    exact ⟨("Дата: " ++ fmt d ++ "\nТекст: ").data,
      ("\n" ++ String.mk (List.replicate 50 '-')).data,
      by simp [postEntry, string_data_append]⟩
  · intro t ht
    simp [text_preview, ht]

/-- A 150-character text, used to witness the preview truncation. -/
def longText : String := String.mk (List.replicate 150 'a')

/-- Witness for C9: the 150-character text is previewed as its first 100
characters plus an ellipsis. -/
theorem c9_exporter_witness :
    text_preview longText = longText.take 100 ++ "..." :=
  (c9_exporter (fun _ => "") []).2.2 longText (by
    show 100 < longText.length
    simp [longText, String.length])
